import Mathlib

/-!
Shallow embedding of SqliteVectorStore (src/llama_index/vector_stores/sqlite.py).

Each method is modelled line by line over an explicit store state.  sqlite-level
and Python-level failures are modelled as values of PyErr, raised at the program
point where the interpreter would raise them:

* lines 55, 70 and 94 enter a with-block on self.con.cursor(); sqlite3.Cursor is
  not a context manager, so a TypeError is raised right after the cursor call
  (and the cursor call itself raises ProgrammingError once the connection has
  been closed);
* _embedding_to_db (line 88) and _db_query_to_query_result (line 114) are
  declared without a self parameter, so the bound calls on lines 82, 110 and 111
  raise TypeError while their arguments are being built;
* the insert statement on line 81 names the node table, not the vss table, and
  has no values clause; the statement on line 98 lacks the delete keyword and
  passes a bare string as the parameter sequence; line 104 passes arguments to
  Cursor.fetchall, which accepts none; line 121 calls nodes.append() without an
  argument.

Embedding elements are modelled by their IEEE-754 single-precision bit patterns
(naturals below 2 ^ 32); struct.pack with format (n)f stores each element as 4
little-endian bytes, in input order.  The connection state is split into
committed tables and pending (open-transaction) tables; self.con.commit()
publishes pending into committed.
-/

/-- Generic metadata document produced by node_to_metadata_dict: guaranteed to
carry a doc_id key, plus the remaining entries with body text stripped. -/
structure MetadataDict where
  docId : String
  entries : List (String × String)

/-- A text node: caller-supplied identifier, textual content, owning document
identifier and free-form metadata. -/
structure TextNode where
  id : String
  content : String
  docId : String
  metadata : List (String × String)

/-- A node paired with its embedding, the element type of the list passed to
add.  Embedding elements are 32-bit IEEE-754 single-precision bit patterns. -/
structure NodeWithEmbedding where
  node : TextNode
  embedding : List Nat

/-- Argument of query: a query embedding and the requested top-k. -/
structure VectorStoreQuery where
  query_embedding : List Nat
  similarity_top_k : Nat

/-- Result type of query: three parallel sequences. -/
structure VectorStoreQueryResult where
  nodes : List TextNode
  similarities : List Int
  ids : List String

/-- One row of the node table (id, node_text, metadata, node_id, doc_id). -/
structure NodeRow where
  id : Nat
  node_text : String
  metadata : MetadataDict
  node_id : String
  doc_id : String

/-- One row of the vss virtual table: rowid and the packed embedding bytes. -/
structure VssRow where
  rowid : Nat
  embedding : List Nat

/-- One joined row as the query select on lines 104-109 would produce it. -/
structure DbRow where
  node_id : String
  node_text : String
  metadata : MetadataDict
  doc_id : String
  distance : Int

/-- The two tables owned by the store, plus the autoincrement counter of the
node table. -/
structure Tables where
  nodeRows : List NodeRow
  vssRows : List VssRow
  nextId : Nat

/-- Connection state: committed (durable) tables, pending tables of the open
implicit transaction, and whether self.con has been closed. -/
structure Store where
  committed : Tables
  pending : Tables
  conClosed : Bool

/-- Errors the embedded code can raise.  typeError, operationalError and
programmingError are produced by the source as written; corruptBuffer is
produced by the spec-modelled decoder; dimensionMismatch and storeClosed are
the error kinds named by the specification and are never raised by the code —
they are present so that statements about them can be expressed. -/
inductive PyErr where
  | typeError (msg : String)
  | operationalError (msg : String)
  | programmingError (msg : String)
  | corruptBuffer
  | dimensionMismatch
  | storeClosed

/-- Message of the TypeError raised when a with-block is entered on a
sqlite3.Cursor (lines 55, 70, 94). -/
def cursorCtxMsg : String := "sqlite3.Cursor object does not support the context manager protocol"

/-- Message of the TypeError raised by the bound call self._embedding_to_db(x):
the function on line 88 has a single parameter, so the bound call receives one
argument too many (lines 82 and 110). -/
def boundEmbMsg : String := "_embedding_to_db takes 1 positional argument but 2 were given"

/-- Message of the TypeError raised by the bound call
self._db_query_to_query_result(results) on line 111; the function on line 114
has a single parameter. -/
def boundResMsg : String := "_db_query_to_query_result takes 1 positional argument but 2 were given"

/-- Message of the ProgrammingError raised when the closed connection is used. -/
def closedConMsg : String := "Cannot operate on a closed database"

/-- Message of the ProgrammingError raised when a bare string of length other
than one is passed as the parameter sequence (line 97). -/
def bindingsMsg : String := "Incorrect number of bindings supplied"

/-- Message of the OperationalError for the insert statement on line 81, which
has no values clause. -/
def insertStmtMsg : String := "sqlite rejects the incomplete insert statement"

/-- Message of the OperationalError for the statement on line 98, which lacks
the delete keyword. -/
def deleteStmtMsg : String := "sqlite rejects the statement missing the delete keyword"

/-- Message of the TypeError raised on line 104: Cursor.fetchall accepts no
arguments. -/
def fetchallMsg : String := "fetchall takes no arguments"

/-- Message of the TypeError raised on line 121: nodes.append() is called
without an argument. -/
def appendMsg : String := "append takes exactly one argument, 0 given"

/-- Four little-endian bytes of one IEEE-754 single-precision bit pattern, as
struct.pack with format f lays it out. -/
def packF32 (x : Nat) : List Nat :=
  [x % 256, x / 256 % 256, x / 65536 % 256, x / 16777216 % 256]

/-- Shallow embedding of _embedding_to_db (lines 88-90) as the plain function it
is: struct.pack with format (len e)f packs each element as 4 little-endian
bytes, in input order, sizing the format from the input itself. -/
def embedding_to_db : List Nat → List Nat
  | [] => []
  | x :: rest => packF32 x ++ embedding_to_db rest

/-- Modelled from the spec: the decode direction of the embedding codec is
absent from src/ (section 4.1: decode chunks the buffer into element-width
groups and fails with CorruptBuffer when the byte length is not a multiple of
the element width). -/
def db_to_embedding : List Nat → Except PyErr (List Nat)
  | [] => Except.ok []
  | b0 :: b1 :: b2 :: b3 :: rest =>
    match db_to_embedding rest with
    | Except.ok vs => Except.ok ((b0 + 256 * b1 + 65536 * b2 + 16777216 * b3) :: vs)
    | Except.error e => Except.error e
  | _ => Except.error PyErr.corruptBuffer

/-- Modelled from the spec: llama_index.vector_stores.utils.node_to_metadata_dict
is not under src/; per section 4.2 it serializes node metadata with the body
text stripped and guarantees a doc_id key in the result. -/
def node_to_metadata_dict (n : TextNode) : MetadataDict :=
  { docId := n.docId, entries := n.metadata }

/-- Modelled from the spec: llama_index.vector_stores.utils.metadata_dict_to_node
is not under src/; per section 4.2 it reconstructs a node with empty text from
the metadata document. -/
def metadata_dict_to_node (m : MetadataDict) : TextNode :=
  { id := "", content := "", docId := m.docId, metadata := m.entries }

/-- node.set_content(text): replaces the node content. -/
def TextNode.setContent (n : TextNode) (t : String) : TextNode :=
  { n with content := t }

/-- Modelled from the spec: NodeWithEmbedding.id (types.py is not under src/) is
the caller-supplied node identifier, used by line 83. -/
def NodeWithEmbedding.id (r : NodeWithEmbedding) : String := r.node.id

namespace SqliteVectorStore

/-- self.con.cursor(): raises ProgrammingError once the connection is closed,
otherwise yields a cursor (carrying no state we track). -/
def conCursor (s : Store) : Except PyErr Unit :=
  if s.conClosed then Except.error (PyErr.programmingError closedConMsg)
  else Except.ok ()

/-- with self.con.cursor() as cx: the cursor call runs first, then the
with-protocol lookup raises TypeError because sqlite3.Cursor has no enter
method (lines 55, 70, 94). -/
def withConCursor (s : Store) : Except PyErr Unit :=
  match conCursor s with
  | Except.error e => Except.error e
  | Except.ok _ => Except.error (PyErr.typeError cursorCtxMsg)

/-- Embedding of _create_tables_if_not_exists (lines 54-66): it opens the same
with-block on a cursor, so the schema bootstrap itself raises. -/
def create_tables_if_not_exists (s : Store) : Except PyErr Unit :=
  withConCursor s

/-- The bound call self._embedding_to_db(e) on lines 82 and 110: the function is
declared without a self parameter, so the call raises TypeError before any
statement that would consume its result runs. -/
def call_embedding_to_db (_e : List Nat) : Except PyErr (List Nat) :=
  Except.error (PyErr.typeError boundEmbMsg)

/-- The statement on line 81: its text is insert into NODE_TABLE(rowid,
embedding) — it names the node table rather than the vss table and carries no
values clause, so sqlite rejects it as incomplete; no table is modified. -/
def insertEmbeddingStmt (_t : Tables) (_rowid : Nat) (_blob : List Nat) :
    Except PyErr Tables :=
  Except.error (PyErr.operationalError insertStmtMsg)

/-- The loop body of add (lines 71-83), threading the pending tables: insert the
node row (line 75), then build the arguments of the second execute — where the
bound _embedding_to_db call raises — then the line-81 statement itself, then
collect the id.  Only the node-row insert ever succeeds. -/
def addLoop : Tables → List NodeWithEmbedding → List String →
    Tables × Except PyErr (List String)
  | t, [], ids => (t, Except.ok ids)
  | t, result :: rest, ids =>
    let md := node_to_metadata_dict result.node
    let row : NodeRow :=
      { id := t.nextId, node_text := result.node.content, metadata := md,
        node_id := result.node.id, doc_id := md.docId }
    let t1 : Tables := { t with nodeRows := t.nodeRows ++ [row], nextId := t.nextId + 1 }
    match call_embedding_to_db result.embedding with
    | Except.error e => (t1, Except.error e)
    | Except.ok blob =>
      match insertEmbeddingStmt t1 t.nextId blob with
      | Except.error e => (t1, Except.error e)
      | Except.ok t2 => addLoop t2 rest (ids ++ [result.id])

/-- Embedding of add (lines 68-86): enter the with-block on a cursor (which
raises), run the loop, and only after the whole loop commit the transaction
(line 85).  On any error the exception propagates before the commit, so the
committed tables are untouched. -/
def add (s : Store) (embedding_results : List NodeWithEmbedding) :
    Store × Except PyErr (List String) :=
  match withConCursor s with
  | Except.error e => (s, Except.error e)
  | Except.ok _ =>
    match addLoop s.pending embedding_results [] with
    | (p, Except.error e) => ({ s with pending := p }, Except.error e)
    | (p, Except.ok ids) => ({ s with pending := p, committed := p }, Except.ok ids)

/-- The statement on lines 95-97: delete the vss rows whose rowid matches a node
row with the given doc_id.  The parameter is the bare string (ref_doc_id), which
sqlite3 treats as a sequence of characters: unless its length is exactly one the
binding count is wrong and a ProgrammingError is raised. -/
def deleteVssStmt (t : Tables) (d : String) : Except PyErr Tables :=
  if d.length = 1 then
    let owned := fun (v : VssRow) => t.nodeRows.any (fun n => n.id == v.rowid && n.doc_id == d)
    Except.ok { t with vssRows := t.vssRows.filter (fun v => !(owned v)) }
  else Except.error (PyErr.programmingError bindingsMsg)

/-- Embedding of delete (lines 93-100): enter the with-block on a cursor (which
raises); the dead continuation runs the vss delete and then the line-98
statement, whose text starts with the word from — the delete keyword is missing
— so sqlite rejects it and the node rows are never removed; the commit on line
100 is never reached. -/
def delete (s : Store) (ref_doc_id : String) : Store × Except PyErr Unit :=
  match withConCursor s with
  | Except.error e => (s, Except.error e)
  | Except.ok _ =>
    match deleteVssStmt s.pending ref_doc_id with
    | Except.error e => (s, Except.error e)
    | Except.ok p1 =>
      ({ s with pending := p1 }, Except.error (PyErr.operationalError deleteStmtMsg))

/-- Embedding of query (lines 102-111): line 103 takes a cursor without a
with-block (raising only on a closed connection); line 104 then builds the
arguments of fetchall, where the bound _embedding_to_db call raises; had it
returned, fetchall itself accepts no arguments and raises TypeError.  No result
is ever produced. -/
def query (s : Store) (q : VectorStoreQuery) :
    Store × Except PyErr VectorStoreQueryResult :=
  match conCursor s with
  | Except.error e => (s, Except.error e)
  | Except.ok _ =>
    match call_embedding_to_db q.query_embedding with
    | Except.error e => (s, Except.error e)
    | Except.ok _blob => (s, Except.error (PyErr.typeError fetchallMsg))

/-- Embedding of the body of _db_query_to_query_result (lines 114-129): on an
empty row list the three empty parallel lists are returned; on the first row the
node is rebuilt and its text re-attached, and then nodes.append() on line 121 is
called without an argument and raises TypeError (lines 122 and 123 subscript the
append methods and would also raise). -/
def db_query_to_query_result : List DbRow → Except PyErr VectorStoreQueryResult
  | [] => Except.ok { nodes := [], similarities := [], ids := [] }
  | res :: _ =>
    let _node := (metadata_dict_to_node res.metadata).setContent res.node_text
    Except.error (PyErr.typeError appendMsg)

/-- The bound call self._db_query_to_query_result(results) on line 111: the
function on line 114 is declared without a self parameter, so the call raises
TypeError before its body runs. -/
def call_db_query_to_query_result (_rows : List DbRow) :
    Except PyErr VectorStoreQueryResult :=
  Except.error (PyErr.typeError boundResMsg)

/-- close (lines 39-40) is declared async def; invoking it without awaiting it
returns a coroutine and runs nothing: the store is unchanged. -/
def closeUnawaited (s : Store) : Store := s

/-- Awaiting close runs self.con.close(), closing the underlying connection.
The method keeps no closed flag of its own and raises nothing by itself. -/
def closeAwaited (s : Store) : Store := { s with conClosed := true }

end SqliteVectorStore

/-- A sample node used to evaluate the operations. -/
def exNode : TextNode := { id := "n1", content := "hello", docId := "d", metadata := [] }

/-- A sample node-with-embedding of length 3. -/
def exNWE : NodeWithEmbedding := { node := exNode, embedding := [1, 2, 3] }

/-- A sample node-with-embedding whose embedding length 2 disagrees with the
fixed table dimension 1536 of the vss table declared on lines 65-66. -/
def exNWEdim2 : NodeWithEmbedding := { node := exNode, embedding := [7, 9] }

/-- The empty pair of tables, autoincrement counter at 1. -/
def emptyTables : Tables := { nodeRows := [], vssRows := [], nextId := 1 }

/-- A fresh open store over empty tables. -/
def exStore : Store := { committed := emptyTables, pending := emptyTables, conClosed := false }

/-- A committed node row owned by document d. -/
def exRowD : NodeRow :=
  { id := 1, node_text := "hello", metadata := { docId := "d", entries := [] },
    node_id := "n1", doc_id := "d" }

/-- Tables holding the one committed row of document d. -/
def tablesWithRow : Tables := { nodeRows := [exRowD], vssRows := [], nextId := 2 }

/-- An open store holding one committed row of document d. -/
def storeWithRow : Store :=
  { committed := tablesWithRow, pending := tablesWithRow, conClosed := false }

/-- A sample query with top-k 1. -/
def exQuery : VectorStoreQuery := { query_embedding := [1, 2, 3], similarity_top_k := 1 }

/-- A sample joined result row. -/
def exDbRow : DbRow :=
  { node_id := "n1", node_text := "hello", metadata := { docId := "d", entries := [] },
    doc_id := "d", distance := 0 }

/-- C1: the claim says that after each add or delete the row-identity sets of
the two tables agree, and in particular that after every successful add each
vector index entry matches exactly one node row.  Evaluating the code: adding
one node to the empty store raises a TypeError at the with-block on the cursor,
leaves both committed tables empty, and no add ever succeeds — the second
per-node insert (line 81) targets the node table with an incomplete statement,
so the vss table can never gain the matching entry the claim presumes. -/
theorem C1_add_raises_and_index_stays_empty :
    (SqliteVectorStore.add exStore [exNWE]).2 =
        Except.error (PyErr.typeError cursorCtxMsg) ∧
      (SqliteVectorStore.add exStore [exNWE]).1.committed.vssRows = [] ∧
      (SqliteVectorStore.add exStore [exNWE]).1.committed.nodeRows = [] :=
  ⟨rfl, rfl, rfl⟩

/-- C2: decoding the byte buffer produced by encoding any embedding yields the
embedding again bit-for-bit, elements being modelled by their 32-bit
single-precision patterns. -/
theorem C2_encode_decode_roundtrip (v : List Nat) (h : ∀ x ∈ v, x < 4294967296) :
    db_to_embedding (embedding_to_db v) = Except.ok v := by
  induction v with
  | nil => rfl
  | cons x rest ih =>
    have hx : x < 4294967296 := h x (by simp)
    have hrest : ∀ y ∈ rest, y < 4294967296 := fun y hy => h y (by simp [hy])
    have hr := ih hrest
    have key : x % 256 + 256 * (x / 256 % 256) + 65536 * (x / 65536 % 256) +
        16777216 * (x / 16777216 % 256) = x := by omega
    simp only [embedding_to_db, packF32, List.cons_append, List.nil_append,
      db_to_embedding, hr, key]
    simp [hr]

/-- C2 witness: the round trip evaluated on a concrete three-element vector. -/
theorem C2_roundtrip_witness :
    (∀ x ∈ [1, 4294967295, 0], x < 4294967296) ∧
      db_to_embedding (embedding_to_db [1, 4294967295, 0]) =
        Except.ok [1, 4294967295, 0] :=
  ⟨by decide, C2_encode_decode_roundtrip [1, 4294967295, 0] (by decide)⟩

/-- C3: the claim says add rejects a wrong-length embedding with
DimensionMismatch before any write.  Evaluating the code: the encoder sizes its
format from the input itself, so encoding a 2-element vector against the
1536-dimension table succeeds and yields 8 bytes; the add call fails for every
input with the cursor TypeError, never with DimensionMismatch, and no check of
the embedding length against the table dimension exists anywhere. -/
theorem C3_no_dimension_check :
    embedding_to_db [7, 9] = [7, 0, 0, 0, 9, 0, 0, 0] ∧
      (embedding_to_db [7, 9]).length = 8 ∧
      (SqliteVectorStore.add exStore [exNWEdim2]).2 =
        Except.error (PyErr.typeError cursorCtxMsg) :=
  ⟨rfl, rfl, rfl⟩

/-- C4: the claim says every query returns a result whose similarity scores are
monotonically non-increasing.  Evaluating the code: every query raises a
TypeError while building the fetchall arguments (the bound _embedding_to_db
call), so no result sequence is ever returned. -/
theorem C4_query_never_returns_result :
    (SqliteVectorStore.query storeWithRow exQuery).2 =
        Except.error (PyErr.typeError boundEmbMsg) ∧
      (SqliteVectorStore.query exStore exQuery).2 =
        Except.error (PyErr.typeError boundEmbMsg) :=
  ⟨rfl, rfl⟩

/-- C5: the claim says every query returns three parallel equal-length
sequences.  Evaluating the code: the bound call to _db_query_to_query_result
raises a TypeError (no self parameter), and its body raises at nodes.append()
on the first row anyway; only the degenerate empty-row case would build a
result. -/
theorem C5_result_builder_raises :
    SqliteVectorStore.call_db_query_to_query_result [exDbRow] =
        Except.error (PyErr.typeError boundResMsg) ∧
      SqliteVectorStore.db_query_to_query_result [exDbRow] =
        Except.error (PyErr.typeError appendMsg) :=
  ⟨rfl, rfl⟩

/-- C6: the claim says delete removes every node of the doc_id (so later queries
cannot return it) and that deleting an unknown doc_id is a no-op.  Evaluating
the code: delete raises the cursor TypeError for any doc_id, known or unknown,
the node row owned by document d survives in the committed tables, and even the
dead continuation would fail at the line-98 statement that lacks the delete
keyword. -/
theorem C6_delete_raises_and_rows_remain :
    (SqliteVectorStore.delete storeWithRow "d").2 =
        Except.error (PyErr.typeError cursorCtxMsg) ∧
      ((SqliteVectorStore.delete storeWithRow "d").1.committed.nodeRows.any
        (fun r => r.doc_id == "d")) = true ∧
      (SqliteVectorStore.delete storeWithRow "unknown").2 =
        Except.error (PyErr.typeError cursorCtxMsg) :=
  ⟨rfl, rfl, rfl⟩

/-- C7: the claim says a successful add returns the node identifier of each
added node in input order.  Evaluating the code: add never returns a list of
identifiers for any input on an open store — every call raises the cursor
TypeError. -/
theorem C7_add_never_returns_ids (rs : List NodeWithEmbedding) :
    (SqliteVectorStore.add exStore rs).2 =
      Except.error (PyErr.typeError cursorCtxMsg) :=
  rfl

/-- C8: the claim says each record-table insert happens strictly before the
corresponding vector-index upsert.  Evaluating the code: add performs no
vector-index upsert at all — the whole call raises the cursor TypeError with
both pending tables untouched, and even the inner loop, run on its own, inserts
the node row and then raises at the bound _embedding_to_db call with the vss
table still empty (the line-81 statement, had it been reached, names the node
table and is incomplete). -/
theorem C8_no_vector_index_upsert :
    (SqliteVectorStore.add exStore [exNWE]).1.pending.vssRows = [] ∧
      (SqliteVectorStore.addLoop emptyTables [exNWE] []).2 =
        Except.error (PyErr.typeError boundEmbMsg) ∧
      (SqliteVectorStore.addLoop emptyTables [exNWE] []).1.vssRows = [] ∧
      (SqliteVectorStore.addLoop emptyTables [exNWE] []).1.nodeRows.length = 1 :=
  ⟨rfl, rfl, rfl, rfl⟩

/-- C9 counterexample: after an awaited close, add fails with the engine
closed-connection ProgrammingError raised by the cursor call on the connection
itself — not with StoreClosed, an error the code never raises. -/
theorem C9_counterexample :
    (SqliteVectorStore.add (SqliteVectorStore.closeAwaited exStore) []).2 =
        Except.error (PyErr.programmingError closedConMsg) ∧
      PyErr.programmingError closedConMsg ≠ PyErr.storeClosed :=
  ⟨rfl, fun h => PyErr.noConfusion h⟩

/-- C9 amended: after an awaited close, every subsequent add, delete or query
fails with the closed-connection ProgrammingError produced by calling cursor()
on the closed connection (the connection is touched; there is no StoreClosed
fail-fast), and a close that is not awaited runs nothing and leaves the store
unchanged. -/
theorem C9_after_close_engine_error (s : Store) (rs : List NodeWithEmbedding)
    (d : String) (q : VectorStoreQuery) :
    (SqliteVectorStore.add (SqliteVectorStore.closeAwaited s) rs).2 =
        Except.error (PyErr.programmingError closedConMsg) ∧
      (SqliteVectorStore.delete (SqliteVectorStore.closeAwaited s) d).2 =
        Except.error (PyErr.programmingError closedConMsg) ∧
      (SqliteVectorStore.query (SqliteVectorStore.closeAwaited s) q).2 =
        Except.error (PyErr.programmingError closedConMsg) ∧
      SqliteVectorStore.closeUnawaited s = s :=
  ⟨rfl, rfl, rfl, rfl⟩

/-- C10: the only commit in add sits on line 85, after the whole per-node loop;
every add raises before reaching it, so the exception propagates before the
commit and the committed (durable) tables are unchanged — no partially
committed prefix ever becomes visible. -/
theorem C10_error_propagates_before_commit (s : Store) (rs : List NodeWithEmbedding) :
    (SqliteVectorStore.add s rs).1.committed = s.committed ∧
      ∃ e, (SqliteVectorStore.add s rs).2 = Except.error e := by
  cases hc : s.conClosed with
  | false =>
    refine ⟨?_, PyErr.typeError cursorCtxMsg, ?_⟩ <;>
      simp [SqliteVectorStore.add, SqliteVectorStore.withConCursor,
        SqliteVectorStore.conCursor, hc]
  | true =>
    refine ⟨?_, PyErr.programmingError closedConMsg, ?_⟩ <;>
      simp [SqliteVectorStore.add, SqliteVectorStore.withConCursor,
        SqliteVectorStore.conCursor, hc]
